import Mathlib

/-!
Shallow embedding of `src/train.py`, the training driver of the smallcap
repository.  External library calls (HuggingFace `transformers`, pandas,
h5py) are modelled as uninterpreted functions collected in an `Env`
record; everything the script itself computes is embedded faithfully.
Python floats that only ever hold exactly-representable values
(`attention_size`, learning rate) are modelled as rationals; Python ints
as `Int`.
-/

/-- Substring test on lists of characters: does `pre` occur at the front? -/
def prefL : List Char → List Char → Bool
  | [], _ => true
  | _ :: _, [] => false
  | a :: as, b :: bs => a == b && prefL as bs

/-- Does `pat` occur (as a contiguous run) anywhere in `s`?  Models
Python's `pat in s` on strings. -/
def subAt (pat : List Char) : List Char → Bool
  | [] => prefL pat []
  | c :: rest => prefL pat (c :: rest) || subAt pat rest

/-- Python `pat in s` for strings. -/
def strHasSub (s pat : String) : Bool :=
  subAt pat.toList s.toList

/-- `os.path.join a b` for the cases the script exercises: if `b` is
absolute it wins; otherwise the parts are joined, inserting a slash
unless `a` already ends in one (or is empty). -/
def startsWithSlash (b : String) : Bool :=
  match b.toList with
  | [] => false
  | c :: _ => c == '/'

def endsWithSlash (a : String) : Bool :=
  match a.toList.getLast? with
  | none => false
  | some c => c == '/'

def pathJoin (a b : String) : String :=
  if startsWithSlash b then b
  else if endsWithSlash a || a = "" then a ++ b
  else a ++ "/" ++ b

/-- The command-line arguments of `train.py` (argparse namespace). -/
structure Args where
  features_dir : String
  annotations_path : String
  captions_path : String
  experiments_dir : String
  encoder_name : String
  decoder_name : String
  attention_size : ℚ
  train_decoder : Bool
  disable_rag : Bool
  k : ℤ
  retrieval_encoder : String
  template_path : String
  n_epochs : ℤ
  lr : ℚ
  batch_size : ℤ
  gradient_steps : ℤ
  ablation_visual : Bool
deriving Repr

/-- A torch parameter: its shape and its `requires_grad` flag. -/
structure Param where
  size : List ℕ
  requiresGrad : Bool
deriving DecidableEq, Repr, Inhabited

/-- The decoder sub-config (`model.config.decoder`). -/
structure DecoderConfig where
  vocab_size : ℕ
deriving DecidableEq, Repr, Inhabited

/-- The composite model config (`model.config`).  Fields the script may
leave untouched are `Option`s holding whatever the pretrained checkpoint
supplied (`none` = attribute absent / `None`). -/
structure ModelConfig where
  decoder : DecoderConfig
  vocab_size : ℕ
  decoder_start_token_id : Option ℤ
  pad_token_id : Option ℤ
  eos_token_id : Option ℤ
  k : Option ℤ
  retrieval_encoder : Option String
  max_length : ℕ
  rag : Option Bool
deriving DecidableEq, Repr, Inhabited

/-- The SmallCap model as the script observes it: its config, the
parameters of the vision encoder, and the named parameters of the
language decoder. -/
structure Model where
  config : ModelConfig
  encoderParams : List Param
  decoderParams : List (String × Param)
deriving DecidableEq, Repr, Inhabited

/-- A HuggingFace tokenizer: its special tokens and its vocabulary map
(`convert_tokens_to_ids`, `none` for unknown). -/
structure Tokenizer where
  pad_token : String
  eos_token : String
  vocab : String → Option ℤ
deriving Inhabited

/-- `tokenizer.pad_token_id`: the id of the current pad token. -/
def Tokenizer.padTokenId (t : Tokenizer) : Option ℤ :=
  t.vocab t.pad_token

/-- `tokenizer.eos_token_id`: the id of the current eos token. -/
def Tokenizer.eosTokenId (t : Tokenizer) : Option ℤ :=
  t.vocab t.eos_token

/-- A CLIP feature extractor (opaque payload). -/
structure FeatureExtractor where
  tag : ℕ
deriving DecidableEq, Repr, Inhabited

/-- Which decoder family is registered with the Auto classes. -/
inductive DecoderKind where
  | gpt2
  | xglm
  | opt
deriving DecidableEq, Repr, Inhabited

/-- The external world: every call into HuggingFace / pandas the script
makes, as uninterpreted functions.  `pretrainedModel` is
`SmallCap.from_encoder_decoder_pretrained(encoder, decoder,
cross_attention_reduce_factor)`; `loadDataForTraining a c s` is the data
of split `s` returned by `load_data_for_training(a, c)`; `floatStr` is
Python's `str` on a float. -/
structure Env where
  featureExtractorOf : String → FeatureExtractor
  tokenizerOf : String → Tokenizer
  pretrainedModel : String → String → ℚ → Model
  loadDataForTraining : String → String → String → ℕ
  floatStr : ℚ → String

/-- `PARAMS2REDUCE_FACTOR = {28: 1, 14: 2, 7: 4, 3.5: 8, 1.75: 16}`,
as the lookup function `size ↦ dict[size]` (`none` = `KeyError`). -/
def PARAMS2REDUCE_FACTOR (q : ℚ) : Option ℚ :=
  if q = 28 then some 1
  else if q = 14 then some 2
  else if q = 7 then some 4
  else if q = 3.5 then some 8
  else if q = 1.75 then some 16
  else none

def PAD_TOKEN : String := "!"

def EOS_TOKEN : String := "."

def CAPTION_LENGTH : ℕ := 25

/-- The registration branch at the top of `get_model_and_auxiliaries`:
`"xglm" in decoder_name` first, then `"opt"`, else GPT-2. -/
def chooseDecoderKind (decoder_name : String) : DecoderKind :=
  if strHasSub decoder_name "xglm" then .xglm
  else if strHasSub decoder_name "opt" then .opt
  else .gpt2

/-- What `get_model_and_auxiliaries` returns, together with a record of
the external load calls it made (for auditing which pretrained artifacts
were requested). -/
structure GMAResult where
  model : Model
  tokenizer : Tokenizer
  feature_extractor : FeatureExtractor
  registered : DecoderKind
  modelLoadCall : String × String × ℚ
  featureExtractorLoadCall : String
  tokenizerLoadCall : String
deriving Inhabited

/-- Embedding of `get_model_and_auxiliaries(args)`.  `Except` models the
possible `KeyError` from the `PARAMS2REDUCE_FACTOR` lookup; every other
step is total. -/
def get_model_and_auxiliaries (env : Env) (args : Args) :
    Except String GMAResult :=
  let registered := chooseDecoderKind args.decoder_name
  match PARAMS2REDUCE_FACTOR args.attention_size with
  | none => .error "KeyError"
  | some cross_attention_reduce_factor =>
    let feature_extractor := env.featureExtractorOf args.encoder_name
    let tokenizer0 := env.tokenizerOf args.decoder_name
    let tokenizer := { tokenizer0 with pad_token := PAD_TOKEN, eos_token := EOS_TOKEN }
    let model0 := env.pretrainedModel args.encoder_name args.decoder_name
      cross_attention_reduce_factor
    let cfg0 := model0.config
    let cfg1 := { cfg0 with
      vocab_size := cfg0.decoder.vocab_size,
      decoder_start_token_id := none,
      pad_token_id := tokenizer.padTokenId,
      eos_token_id := tokenizer.eosTokenId }
    let cfg2 :=
      if !args.disable_rag then
        { cfg1 with k := some args.k, retrieval_encoder := some args.retrieval_encoder }
      else cfg1
    let cfg3 := { cfg2 with max_length := CAPTION_LENGTH, rag := some (!args.disable_rag) }
    let encoderFrozen := model0.encoderParams.map fun p => { p with requiresGrad := false }
    let decoderAfter :=
      if strHasSub args.decoder_name "xglm" || strHasSub args.decoder_name "opt" then
        if !args.train_decoder then
          model0.decoderParams.map fun np =>
            if strHasSub np.1 "encoder_attn" then np
            else (np.1, { np.2 with requiresGrad := false })
        else model0.decoderParams
      else
        if !args.train_decoder then
          model0.decoderParams.map fun np =>
            if strHasSub np.1 "crossattention" then np
            else (np.1, { np.2 with requiresGrad := false })
        else model0.decoderParams
    .ok {
      model := { config := cfg3, encoderParams := encoderFrozen, decoderParams := decoderAfter },
      tokenizer := tokenizer,
      feature_extractor := feature_extractor,
      registered := registered,
      modelLoadCall := (args.encoder_name, args.decoder_name, cross_attention_reduce_factor),
      featureExtractorLoadCall := args.encoder_name,
      tokenizerLoadCall := args.decoder_name }

/-- A `pd.DataFrame` (opaque payload: the raw split data it was built
from). -/
structure DataFrame where
  raw : ℕ
deriving DecidableEq, Repr, Inhabited

/-- The keyword arguments common to `TrainDataset` and
`AblationFeaturesDataset`. -/
structure DatasetFields where
  df : DataFrame
  features_path : String
  tokenizer : Tokenizer
  rag : Bool
  template_path : String
  k : ℤ
  max_caption_length : ℕ
deriving Inhabited

/-- The training dataset `get_data` builds: one of the two dataset
classes, holding its constructor arguments. -/
inductive TrainData where
  | trainDataset (fields : DatasetFields)
  | ablationFeaturesDataset (fields : DatasetFields)
deriving Inhabited

/-- The constructor arguments of either dataset variant. -/
def TrainData.fields : TrainData → DatasetFields
  | .trainDataset f => f
  | .ablationFeaturesDataset f => f

/-- Embedding of `get_data(tokenizer, max_length, args)`. -/
def get_data (env : Env) (tokenizer : Tokenizer) (max_length : ℕ) (args : Args) :
    TrainData :=
  let train_df : DataFrame :=
    ⟨env.loadDataForTraining args.annotations_path args.captions_path "train"⟩
  if args.ablation_visual then
    .ablationFeaturesDataset {
      df := train_df,
      features_path := pathJoin args.features_dir "train.hdf5",
      tokenizer := tokenizer,
      rag := !args.disable_rag,
      template_path := args.template_path,
      k := args.k,
      max_caption_length := max_length }
  else
    .trainDataset {
      df := train_df,
      features_path := pathJoin args.features_dir "train.hdf5",
      tokenizer := tokenizer,
      rag := !args.disable_rag,
      template_path := args.template_path,
      k := args.k,
      max_caption_length := max_length }

/-- The `Seq2SeqTrainingArguments` record built in `main`. -/
structure Seq2SeqTrainingArguments where
  num_train_epochs : ℤ
  per_device_train_batch_size : ℤ
  gradient_accumulation_steps : ℤ
  learning_rate : ℚ
  fp16 : Bool
  save_strategy : String
  save_total_limit : ℤ
  logging_strategy : String
  output_dir : String
  overwrite_output_dir : Bool
deriving DecidableEq, Repr, Inhabited

/-- The data collator handed to the trainer. -/
inductive DataCollator where
  | defaultDataCollator
  | custom (tag : ℕ)
deriving DecidableEq, Repr, Inhabited

/-- The `Seq2SeqTrainer` as constructed in `main` (note the script
passes the feature extractor in the `tokenizer` slot). -/
structure Seq2SeqTrainer where
  model : Model
  args : Seq2SeqTrainingArguments
  data_collator : DataCollator
  train_dataset : TrainData
  tokenizer : FeatureExtractor
deriving Inhabited

/-- The externally observable steps `main` performs, in order. -/
inductive Event where
  | loadComponents
  | buildDataset
  | buildTrainer
  | trainerTrain
deriving DecidableEq, Repr, Inhabited

/-- What `main` produces: the trainer it built, the output directory it
computed, and the ordered trace of its steps (the single
`trainer.train()` call included). -/
structure MainResult where
  trainer : Seq2SeqTrainer
  output_dir : String
  events : List Event
deriving Inhabited

/-- Embedding of `main(args)`. -/
def mainFn (env : Env) (args : Args) : Except String MainResult :=
  match get_model_and_auxiliaries env args with
  | .error e => .error e
  | .ok r =>
    let train_dataset := get_data env r.tokenizer r.model.config.max_length args
    let model_type := if args.disable_rag then "norag" else "rag"
    let output_dir0 :=
      if args.ablation_visual then
        model_type ++ "_" ++ env.floatStr args.attention_size ++ "M_"
          ++ args.decoder_name ++ "_ablation"
      else
        model_type ++ "_" ++ env.floatStr args.attention_size ++ "M_"
          ++ args.decoder_name
    let output_dir := pathJoin "/kaggle/working/" output_dir0
    let training_args : Seq2SeqTrainingArguments := {
      num_train_epochs := args.n_epochs,
      per_device_train_batch_size := args.batch_size,
      gradient_accumulation_steps := args.gradient_steps,
      learning_rate := args.lr,
      fp16 := true,
      save_strategy := "epoch",
      save_total_limit := args.n_epochs,
      logging_strategy := "epoch",
      output_dir := output_dir,
      overwrite_output_dir := true }
    let trainer : Seq2SeqTrainer := {
      model := r.model,
      args := training_args,
      data_collator := .defaultDataCollator,
      train_dataset := train_dataset,
      tokenizer := r.feature_extractor }
    .ok {
      trainer := trainer,
      output_dir := output_dir,
      events := [.loadComponents, .buildDataset, .buildTrainer, .trainerTrain] }

/-- A concrete external world used to instantiate the theorems. -/
def env0 : Env := {
  featureExtractorOf := fun _ => ⟨3⟩,
  tokenizerOf := fun _ => {
    pad_token := "<pad>",
    eos_token := "</s>",
    vocab := fun s => if s = "!" then some 5 else if s = "." then some 13 else none },
  pretrainedModel := fun _ _ _ => {
    config := {
      decoder := ⟨50257⟩,
      vocab_size := 99,
      decoder_start_token_id := some 1,
      pad_token_id := none,
      eos_token_id := none,
      k := some 9,
      retrieval_encoder := some "old-encoder",
      max_length := 20,
      rag := none },
    encoderParams := [⟨[3, 4], true⟩, ⟨[2], true⟩],
    decoderParams := [
      ("h.0.crossattention.q_attn.weight", ⟨[4, 4], true⟩),
      ("h.0.mlp.c_fc.weight", ⟨[4, 16], true⟩),
      ("layers.0.encoder_attn.k_proj.weight", ⟨[2, 2], true⟩)] },
  loadDataForTraining := fun _ _ _ => 7,
  floatStr := fun q => if q = 7 then "7.0" else "?" }

/-- Concrete command-line arguments (the parser defaults). -/
def args0 : Args := {
  features_dir := "/kaggle/working/features/",
  annotations_path := "/kaggle/input/karpathy-splits/dataset_coco.json",
  captions_path := "/kaggle/working/retrieved_caps_resnet50x64.json",
  experiments_dir := "/kaggle/working/",
  encoder_name := "openai/clip-vit-base-patch32",
  decoder_name := "gpt2",
  attention_size := 7,
  train_decoder := false,
  disable_rag := false,
  k := 4,
  retrieval_encoder := "RN50x64",
  template_path := "/kaggle/working/smallcap/src/template.txt",
  n_epochs := 10,
  lr := 1/10000,
  batch_size := 64,
  gradient_steps := 1,
  ablation_visual := false }

/-- The result of `get_model_and_auxiliaries` on the concrete inputs. -/
def gmaRes0 : GMAResult :=
  match get_model_and_auxiliaries env0 args0 with
  | .ok r => r
  | .error _ => default

/-- The result of `main` on the concrete inputs. -/
def mainRes0 : MainResult :=
  match mainFn env0 args0 with
  | .ok r => r
  | .error _ => default

/-- The cross-attention marker the freezing loop keys on, by decoder
family. -/
def decoderMarker (decoder_name : String) : String :=
  if strHasSub decoder_name "xglm" || strHasSub decoder_name "opt" then "encoder_attn"
  else "crossattention"

/-- Freeze every named parameter whose name does not contain `marker`;
leave the others exactly as they were. -/
def freezeNonCross (marker : String) (ps : List (String × Param)) :
    List (String × Param) :=
  ps.map fun np =>
    if strHasSub np.1 marker then np
    else (np.1, { np.2 with requiresGrad := false })

/-- C1: after `get_model_and_auxiliaries(args)` returns, every parameter
of `model.encoder` (the vision encoder) has `requires_grad` set to
`False`, for every valid `args`. -/
theorem C1_encoder_frozen (env : Env) (args : Args) (r : GMAResult)
    (h : get_model_and_auxiliaries env args = .ok r) :
    r.model.encoderParams.all (fun p => p.requiresGrad == false) = true := by
  unfold get_model_and_auxiliaries at h
  cases hq : PARAMS2REDUCE_FACTOR args.attention_size with
  | none => rw [hq] at h; exact absurd h (by simp)
  | some f =>
    rw [hq] at h
    injection h with h
    subst h
    simp [List.all_map, Function.comp_def]

/-- C1 instantiated at the concrete environment and arguments. -/
theorem C1_encoder_frozen_w :
    gmaRes0.model.encoderParams.all (fun p => p.requiresGrad == false) = true :=
  C1_encoder_frozen env0 args0 gmaRes0 rfl

/-- C2: with `train_decoder` off, exactly the decoder parameters whose
name misses the cross-attention marker (`encoder_attn` for xglm/opt
decoders, `crossattention` otherwise) get `requires_grad := False`, the
marked ones staying untouched; with `train_decoder` on, the decoder
parameters are returned unchanged. -/
theorem C2_decoder_freezing (env : Env) (args : Args) (r : GMAResult) (f : ℚ)
    (h : get_model_and_auxiliaries env args = .ok r)
    (hf : PARAMS2REDUCE_FACTOR args.attention_size = some f) :
    (args.train_decoder = true →
      r.model.decoderParams =
        (env.pretrainedModel args.encoder_name args.decoder_name f).decoderParams) ∧
    (args.train_decoder = false →
      r.model.decoderParams =
        freezeNonCross (decoderMarker args.decoder_name)
          (env.pretrainedModel args.encoder_name args.decoder_name f).decoderParams) := by
  unfold get_model_and_auxiliaries at h
  rw [hf] at h
  injection h with h
  subst h
  unfold decoderMarker freezeNonCross
  cases htd : args.train_decoder <;>
    cases hx : strHasSub args.decoder_name "xglm" <;>
      cases ho : strHasSub args.decoder_name "opt" <;>
        simp [htd, hx, ho]

/-- C2 instantiated at the concrete environment and arguments. -/
theorem C2_decoder_freezing_w :
    (args0.train_decoder = true →
      gmaRes0.model.decoderParams =
        (env0.pretrainedModel args0.encoder_name args0.decoder_name 4).decoderParams) ∧
    (args0.train_decoder = false →
      gmaRes0.model.decoderParams =
        freezeNonCross (decoderMarker args0.decoder_name)
          (env0.pretrainedModel args0.encoder_name args0.decoder_name 4).decoderParams) :=
  C2_decoder_freezing env0 args0 gmaRes0 4 rfl rfl

/-- C3: `get_data` builds the training dataset from the `train` split,
with `rag = not disable_rag`, `k = args.k`, the features file
`features_dir/train.hdf5`, and picks `AblationFeaturesDataset` exactly
when `ablation_visual` is set, with identical fields in both branches;
the dataset's `rag` flag is on iff `--disable_rag` was not given. -/
theorem C3_get_data_construction (env : Env) (tok : Tokenizer) (max_length : ℕ)
    (args : Args) :
    (get_data env tok max_length args =
      (let F : DatasetFields := {
        df := ⟨env.loadDataForTraining args.annotations_path args.captions_path "train"⟩,
        features_path := pathJoin args.features_dir "train.hdf5",
        tokenizer := tok,
        rag := !args.disable_rag,
        template_path := args.template_path,
        k := args.k,
        max_caption_length := max_length };
      if args.ablation_visual then .ablationFeaturesDataset F else .trainDataset F)) ∧
    ((get_data env tok max_length args).fields.rag = true ↔ args.disable_rag = false) := by
  cases ha : args.ablation_visual <;>
    cases hd : args.disable_rag <;>
      simp [get_data, TrainData.fields, ha, hd]

/-- C4: `model.config.rag` is always set to `not disable_rag`;
`model.config.k` and `model.config.retrieval_encoder` are set to
`args.k` / `args.retrieval_encoder` when RAG is enabled and keep their
pretrained values when `--disable_rag` is given. -/
theorem C4_config_rag_fields (env : Env) (args : Args) (r : GMAResult) (f : ℚ)
    (h : get_model_and_auxiliaries env args = .ok r)
    (hf : PARAMS2REDUCE_FACTOR args.attention_size = some f) :
    r.model.config.rag = some (!args.disable_rag) ∧
    (args.disable_rag = true →
      r.model.config.k =
        (env.pretrainedModel args.encoder_name args.decoder_name f).config.k ∧
      r.model.config.retrieval_encoder =
        (env.pretrainedModel args.encoder_name args.decoder_name f).config.retrieval_encoder) ∧
    (args.disable_rag = false →
      r.model.config.k = some args.k ∧
      r.model.config.retrieval_encoder = some args.retrieval_encoder) := by
  unfold get_model_and_auxiliaries at h
  rw [hf] at h
  injection h with h
  subst h
  cases hd : args.disable_rag <;> simp [hd]

/-- C4 instantiated at the concrete environment and arguments. -/
theorem C4_config_rag_fields_w :
    gmaRes0.model.config.rag = some (!args0.disable_rag) ∧
    (args0.disable_rag = true →
      gmaRes0.model.config.k =
        (env0.pretrainedModel args0.encoder_name args0.decoder_name 4).config.k ∧
      gmaRes0.model.config.retrieval_encoder =
        (env0.pretrainedModel args0.encoder_name args0.decoder_name 4).config.retrieval_encoder) ∧
    (args0.disable_rag = false →
      gmaRes0.model.config.k = some args0.k ∧
      gmaRes0.model.config.retrieval_encoder = some args0.retrieval_encoder) :=
  C4_config_rag_fields env0 args0 gmaRes0 4 rfl rfl

/-- C5: `main` loads the pretrained components, builds the dataset
(passing `model.config.max_length` as the caption-length bound), builds
one `Seq2SeqTrainer` over that dataset with the default data collator,
and calls `trainer.train()` exactly once, in that order. -/
theorem C5_main_pipeline (env : Env) (args : Args) (m : MainResult)
    (h : mainFn env args = .ok m) :
    m.events = [.loadComponents, .buildDataset, .buildTrainer, .trainerTrain] ∧
    m.events.count .trainerTrain = 1 ∧
    ∃ g, get_model_and_auxiliaries env args = .ok g ∧
      m.trainer.model = g.model ∧
      m.trainer.train_dataset =
        get_data env g.tokenizer g.model.config.max_length args ∧
      m.trainer.data_collator = .defaultDataCollator ∧
      m.trainer.tokenizer = g.feature_extractor := by
  unfold mainFn at h
  cases hg : get_model_and_auxiliaries env args with
  | error e => rw [hg] at h; exact absurd h (by simp)
  | ok g =>
    rw [hg] at h
    injection h with h
    subst h
    exact ⟨rfl, rfl, g, rfl, rfl, rfl, rfl, rfl⟩

/-- C5 instantiated at the concrete environment and arguments. -/
theorem C5_main_pipeline_w :
    mainRes0.events = [.loadComponents, .buildDataset, .buildTrainer, .trainerTrain] ∧
    mainRes0.events.count .trainerTrain = 1 ∧
    ∃ g, get_model_and_auxiliaries env0 args0 = .ok g ∧
      mainRes0.trainer.model = g.model ∧
      mainRes0.trainer.train_dataset =
        get_data env0 g.tokenizer g.model.config.max_length args0 ∧
      mainRes0.trainer.data_collator = .defaultDataCollator ∧
      mainRes0.trainer.tokenizer = g.feature_extractor :=
  C5_main_pipeline env0 args0 mainRes0 rfl

/-- C6: the model is loaded by
`SmallCap.from_encoder_decoder_pretrained(encoder_name, decoder_name)`
with the reduce factor looked up from `PARAMS2REDUCE_FACTOR`, the
feature extractor from `encoder_name`, the tokenizer from
`decoder_name`, and the registered decoder family is chosen by substring
membership, `xglm` first, then `opt`, defaulting to GPT-2. -/
theorem C6_component_loading (env : Env) (args : Args) (r : GMAResult)
    (h : get_model_and_auxiliaries env args = .ok r) :
    r.feature_extractor = env.featureExtractorOf args.encoder_name ∧
    r.featureExtractorLoadCall = args.encoder_name ∧
    r.tokenizerLoadCall = args.decoder_name ∧
    r.tokenizer.vocab = (env.tokenizerOf args.decoder_name).vocab ∧
    (∃ f, PARAMS2REDUCE_FACTOR args.attention_size = some f ∧
      r.modelLoadCall = (args.encoder_name, args.decoder_name, f)) ∧
    r.registered =
      (if strHasSub args.decoder_name "xglm" then .xglm
       else if strHasSub args.decoder_name "opt" then .opt
       else .gpt2) := by
  unfold get_model_and_auxiliaries at h
  cases hq : PARAMS2REDUCE_FACTOR args.attention_size with
  | none => rw [hq] at h; exact absurd h (by simp)
  | some f =>
    rw [hq] at h
    injection h with h
    subst h
    exact ⟨rfl, rfl, rfl, rfl, ⟨f, rfl, rfl⟩, rfl⟩

/-- C6 instantiated at the concrete environment and arguments. -/
theorem C6_component_loading_w :
    gmaRes0.feature_extractor = env0.featureExtractorOf args0.encoder_name ∧
    gmaRes0.featureExtractorLoadCall = args0.encoder_name ∧
    gmaRes0.tokenizerLoadCall = args0.decoder_name ∧
    gmaRes0.tokenizer.vocab = (env0.tokenizerOf args0.decoder_name).vocab ∧
    (∃ f, PARAMS2REDUCE_FACTOR args0.attention_size = some f ∧
      gmaRes0.modelLoadCall = (args0.encoder_name, args0.decoder_name, f)) ∧
    gmaRes0.registered =
      (if strHasSub args0.decoder_name "xglm" then .xglm
       else if strHasSub args0.decoder_name "opt" then .opt
       else .gpt2) :=
  C6_component_loading env0 args0 gmaRes0 rfl

/-- C7: the `Seq2SeqTrainingArguments` mirror the command line:
epochs, batch size, gradient-accumulation steps, learning rate and the
save limit come from `args`, with `fp16`, epoch-wise save/logging
strategies, and `overwrite_output_dir` fixed. -/
theorem C7_training_args (env : Env) (args : Args) (m : MainResult)
    (h : mainFn env args = .ok m) :
    m.trainer.args.num_train_epochs = args.n_epochs ∧
    m.trainer.args.per_device_train_batch_size = args.batch_size ∧
    m.trainer.args.gradient_accumulation_steps = args.gradient_steps ∧
    m.trainer.args.learning_rate = args.lr ∧
    m.trainer.args.save_total_limit = args.n_epochs ∧
    m.trainer.args.fp16 = true ∧
    m.trainer.args.save_strategy = "epoch" ∧
    m.trainer.args.logging_strategy = "epoch" ∧
    m.trainer.args.overwrite_output_dir = true := by
  unfold mainFn at h
  cases hg : get_model_and_auxiliaries env args with
  | error e => rw [hg] at h; exact absurd h (by simp)
  | ok g =>
    rw [hg] at h
    injection h with h
    subst h
    exact ⟨rfl, rfl, rfl, rfl, rfl, rfl, rfl, rfl, rfl⟩

/-- C7 instantiated at the concrete environment and arguments. -/
theorem C7_training_args_w :
    mainRes0.trainer.args.num_train_epochs = args0.n_epochs ∧
    mainRes0.trainer.args.per_device_train_batch_size = args0.batch_size ∧
    mainRes0.trainer.args.gradient_accumulation_steps = args0.gradient_steps ∧
    mainRes0.trainer.args.learning_rate = args0.lr ∧
    mainRes0.trainer.args.save_total_limit = args0.n_epochs ∧
    mainRes0.trainer.args.fp16 = true ∧
    mainRes0.trainer.args.save_strategy = "epoch" ∧
    mainRes0.trainer.args.logging_strategy = "epoch" ∧
    mainRes0.trainer.args.overwrite_output_dir = true :=
  C7_training_args env0 args0 mainRes0 rfl

/-- The `PARAMS2REDUCE_FACTOR` lookup misses exactly off the five dict
keys. -/
theorem PARAMS2REDUCE_FACTOR_none_iff (q : ℚ) :
    PARAMS2REDUCE_FACTOR q = none ↔
      q ∉ ([28, 14, 7, 3.5, 1.75] : List ℚ) := by
  unfold PARAMS2REDUCE_FACTOR
  split_ifs with h1 h2 h3 h4 h5 <;> simp_all

/-- C8: `get_model_and_auxiliaries` raises `KeyError` exactly when
`attention_size` is not one of the five dict keys, and on those keys the
reduce factor equals `28 / attention_size`. -/
theorem C8_reduce_factor (env : Env) (args : Args) :
    ((∃ e, get_model_and_auxiliaries env args = .error e) ↔
      args.attention_size ∉ ([28, 14, 7, 3.5, 1.75] : List ℚ)) ∧
    (∀ q : ℚ, q ∈ ([28, 14, 7, 3.5, 1.75] : List ℚ) →
      PARAMS2REDUCE_FACTOR q = some (28 / q)) := by
  constructor
  · have hiff : (∃ e, get_model_and_auxiliaries env args = .error e) ↔
        PARAMS2REDUCE_FACTOR args.attention_size = none := by
      unfold get_model_and_auxiliaries
      cases hq : PARAMS2REDUCE_FACTOR args.attention_size <;> simp
    exact hiff.trans (PARAMS2REDUCE_FACTOR_none_iff args.attention_size)
  · intro q hq
    simp only [List.mem_cons, List.not_mem_nil, or_false] at hq
    rcases hq with rfl | rfl | rfl | rfl | rfl <;> norm_num [PARAMS2REDUCE_FACTOR]

/-- C8 instantiated: `attention_size = 9` raises `KeyError`, and the key
`3.5` maps to `28 / 3.5 = 8`. -/
theorem C8_reduce_factor_w :
    (∃ e, get_model_and_auxiliaries env0 { args0 with attention_size := 9 } = .error e) ∧
    PARAMS2REDUCE_FACTOR 3.5 = some (28 / 3.5) :=
  ⟨(C8_reduce_factor env0 { args0 with attention_size := 9 }).1.mpr (by norm_num),
   (C8_reduce_factor env0 args0).2 3.5 (by norm_num)⟩

/-- C9: the training output directory is
`/kaggle/working/{norag|rag}_{attention_size}M_{decoder_name}` with an
`_ablation` suffix exactly when `ablation_visual` is set, and `main`
never reads `experiments_dir`. -/
theorem C9_output_dir (env : Env) (args : Args) (m : MainResult)
    (h : mainFn env args = .ok m) :
    m.output_dir =
      "/kaggle/working/" ++ (if args.disable_rag then "norag" else "rag") ++ "_"
        ++ env.floatStr args.attention_size ++ "M_" ++ args.decoder_name
        ++ (if args.ablation_visual then "_ablation" else "") ∧
    (∀ d, mainFn env { args with experiments_dir := d } = mainFn env args) := by
  refine ⟨?_, fun d => rfl⟩
  unfold mainFn at h
  cases hg : get_model_and_auxiliaries env args with
  | error e => rw [hg] at h; exact absurd h (by simp)
  | ok g =>
    rw [hg] at h
    injection h with h
    subst h
    have hends : endsWithSlash "/kaggle/working/" = true := by decide
    cases ha : args.ablation_visual <;> cases hd : args.disable_rag <;>
      simp [pathJoin, startsWithSlash, hends, String.toList, String.data_append,
        ← String.append_assoc, ha, hd]

/-- C9 instantiated at the concrete environment and arguments. -/
theorem C9_output_dir_w :
    mainRes0.output_dir =
      "/kaggle/working/" ++ (if args0.disable_rag then "norag" else "rag") ++ "_"
        ++ env0.floatStr args0.attention_size ++ "M_" ++ args0.decoder_name
        ++ (if args0.ablation_visual then "_ablation" else "") ∧
    mainFn env0 { args0 with experiments_dir := "/elsewhere/" } = mainFn env0 args0 :=
  ⟨(C9_output_dir env0 args0 mainRes0 rfl).1,
   (C9_output_dir env0 args0 mainRes0 rfl).2 "/elsewhere/"⟩

/-- C10: the tokenizer's pad and eos tokens become `!` and `.`, their
ids are copied into the model config, `vocab_size` is taken from the
decoder config, `decoder_start_token_id` is cleared, and `max_length`
is set to 25. -/
theorem C10_token_and_config (env : Env) (args : Args) (r : GMAResult)
    (h : get_model_and_auxiliaries env args = .ok r) :
    r.tokenizer.pad_token = "!" ∧
    r.tokenizer.eos_token = "." ∧
    r.model.config.pad_token_id = r.tokenizer.padTokenId ∧
    r.model.config.eos_token_id = r.tokenizer.eosTokenId ∧
    r.model.config.vocab_size = r.model.config.decoder.vocab_size ∧
    r.model.config.decoder_start_token_id = none ∧
    r.model.config.max_length = 25 := by
  unfold get_model_and_auxiliaries at h
  cases hq : PARAMS2REDUCE_FACTOR args.attention_size with
  | none => rw [hq] at h; exact absurd h (by simp)
  | some f =>
    rw [hq] at h
    injection h with h
    subst h
    cases hd : args.disable_rag <;>
      simp [hd, PAD_TOKEN, EOS_TOKEN, CAPTION_LENGTH,
        Tokenizer.padTokenId, Tokenizer.eosTokenId]

/-- C10 instantiated at the concrete environment and arguments. -/
theorem C10_token_and_config_w :
    gmaRes0.tokenizer.pad_token = "!" ∧
    gmaRes0.tokenizer.eos_token = "." ∧
    gmaRes0.model.config.pad_token_id = gmaRes0.tokenizer.padTokenId ∧
    gmaRes0.model.config.eos_token_id = gmaRes0.tokenizer.eosTokenId ∧
    gmaRes0.model.config.vocab_size = gmaRes0.model.config.decoder.vocab_size ∧
    gmaRes0.model.config.decoder_start_token_id = none ∧
    gmaRes0.model.config.max_length = 25 :=
  C10_token_and_config env0 args0 gmaRes0 rfl
